import Mathlib

/-!
# Verification of the myst-nb sphinx extension (`myst_nb/sphinx_.py`)

A shallow embedding of the notebook-to-document rendering pipeline:

* Python dictionary values are modelled by the inductive `PyValue`
  (mappings are association lists in insertion order, which is how Python
  dicts iterate).
* docutils tree nodes (`nodes.container` etc.) are modelled by `Node`:
  an attribute mapping, a class list, and an ordered list of children.
* The renderer methods of `SphinxNbRenderer`, the post-transform
  `SelectMimeType`, the `Parser.parse` configuration-override step, and
  the `NbMetadataCollector` environment store are translated function by
  function below; each definition's doc comment points at the source.

Pluggable collaborators (`NbElementRenderer` methods such as
`render_mime_type`, and `NbParserConfig.copy`, which live outside
`sphinx_.py`) are abstracted as function parameters.
-/

/-- A Python value, as stored in notebook / cell metadata and in the
notebook configuration.  Mappings keep insertion order, as Python dicts do. -/
inductive PyValue where
  | none
  | bool (b : Bool)
  | int (z : Int)
  | str (s : String)
  | list (xs : List PyValue)
  | dict (entries : List (String × PyValue))

/-- Python `mapping[k]` lookup on an association list: the first entry whose
key equals `k` (keys are unique in a real dict, so "first" is just "the"). -/
def lookup (m : List (String × PyValue)) (k : String) : Option PyValue :=
  (m.find? (fun kv => kv.1 == k)).map (fun kv => kv.2)

/-- A docutils tree node (`docutils.nodes.container` and friends):
an attribute mapping, a list of CSS classes and ordered children.
Source-location bookkeeping (`add_line_and_source_path`) is elided, as no
claim concerns it. -/
inductive Node where
  | mk (attrs : List (String × PyValue)) (classes : List String)
       (children : List Node)

/-- The children of a node. -/
def Node.children : Node → List Node
  | Node.mk _ _ cs => cs

/-- The attribute list of a node. -/
def Node.attrs : Node → List (String × PyValue)
  | Node.mk as _ _ => as

/-- The class list of a node. -/
def Node.classes : Node → List String
  | Node.mk _ cls _ => cls

/-- Reads `node.attributes.get("nb_element", "")`, compared as a string
(non-string attribute values never equal a tag string). -/
def Node.nbElement : Node → String
  | Node.mk as _ _ =>
    match lookup as "nb_element" with
    | some (PyValue.str s) => s
    | _ => ""

/-- Reads `node["mime_type"]` as `SelectMimeType.run` does; mime containers are
always built with a string `mime_type` attribute, so a missing or non-string
attribute is read as `""`. -/
def Node.mimeType : Node → String
  | Node.mk as _ _ =>
    match lookup as "mime_type" with
    | some (PyValue.str s) => s
    | _ => ""

/-- The stable log-type tag `DEFAULT_LOG_TYPE` imported from
`myst_nb.core.loggers` (a constant string; its exact value is immaterial to
every claim). -/
def DEFAULT_LOG_TYPE : String := "mystnb"

/-- Python `repr` of a (plain, quote-free) mime-type string, as used by
`",".join(repr(m) for m in mime_types)`. -/
def pyrepr (s : String) : String := "'" ++ s ++ "'"

/-- The warning message logged by `SelectMimeType.run` (sphinx_.py lines
657-661) when no priority entry matches any available mime type. -/
def mimeWarning (bname : String) (mime_types : List String) : String :=
  "No mime type available in priority list for builder " ++ pyrepr bname
    ++ " (" ++ String.intercalate "," (mime_types.map pyrepr) ++ ") ["
    ++ DEFAULT_LOG_TYPE ++ ".mime_priority]"

/-- The selection loop of `SelectMimeType.run` (sphinx_.py lines 648-655):
scan `priority_list` in order; for the first entry found among the
children's mime types, `index = mime_types.index(mime_type)` picks the first
child carrying it.  Returns that child (fusing the loop with the final
`node.children[index]` accesses). -/
def pickWinner (pri : List String) (cs : List Node) : Option Node :=
  match pri with
  | [] => none
  | p :: ps =>
    match cs.find? (fun c => Node.mimeType c == p) with
    | some c => some c
    | none => pickWinner ps cs

/-- The effect of `SelectMimeType.run` on one mime-bundle node: the list of
nodes that replace it in its parent (`[]` means `node.parent.remove(node)`)
and the warnings logged while processing it. -/
structure StepResult where
  replacement : List Node
  warnings : List String

/-- Processing of a single mime-bundle node by `SelectMimeType.run`
(sphinx_.py lines 642-669): collect the children's mime types; if none,
remove; if no priority entry matches, warn and remove; if the winning
child has no content, remove; otherwise replace the node by the winning
child's children. -/
def resolveBundleStep (bname : String) (pri : List String) (node : Node) :
    StepResult :=
  let mime_types := node.children.map Node.mimeType
  if mime_types.isEmpty then ⟨[], []⟩
  else
    match pickWinner pri node.children with
    | none => ⟨[], [mimeWarning bname mime_types]⟩
    | some w => if w.children.isEmpty then ⟨[], []⟩ else ⟨w.children, []⟩

/-- Unfolding of the `children` projection on a literal node. -/
theorem Node.children_mk (attrs : List (String × PyValue))
    (classes : List String) (cs : List Node) :
    (Node.mk attrs classes cs).children = cs := rfl

/-- The winner returned by `pickWinner` is one of the candidate children.
(Also the termination measure for `resolveList` below.) -/
theorem pickWinner_mem {pri : List String} {cs : List Node} {w : Node}
    (h : pickWinner pri cs = some w) : w ∈ cs := by
  induction pri with
  | nil => simp [pickWinner] at h
  | cons p ps ih =>
    rw [pickWinner] at h
    cases hf : cs.find? (fun c => Node.mimeType c == p) with
    | some c =>
      rw [hf] at h
      cases h
      exact List.mem_of_find?_eq_some hf
    | none =>
      rw [hf] at h
      exact ih h

/-- Any list has positive size (termination bookkeeping). -/
theorem list_sizeOf_pos {α : Type} [SizeOf α] (l : List α) : 0 < sizeOf l := by
  cases l with
  | nil => simp
  | cons x xs => simp only [List.cons.sizeOf_spec]; omega

/-- A node's child list is smaller than the node (termination measure). -/
theorem Node.sizeOf_children_lt (n : Node) : sizeOf n.children < sizeOf n := by
  cases n with
  | mk a cl cs =>
    simp only [Node.children, Node.mk.sizeOf_spec]
    have := list_sizeOf_pos a
    omega

/-- Any node is larger than an empty replacement list (termination
bookkeeping). -/
theorem Node.one_lt_sizeOf (n : Node) : 1 < sizeOf n := by
  cases n with
  | mk a cl cs =>
    simp only [Node.mk.sizeOf_spec]
    have h1 := list_sizeOf_pos a
    have h2 := list_sizeOf_pos cs
    omega

/-- The replacement produced for a mime-bundle node is smaller than the node
itself (termination measure for `resolveList`). -/
theorem resolveBundleStep_sizeOf_lt (bname : String) (pri : List String)
    (node : Node) :
    sizeOf (resolveBundleStep bname pri node).replacement < sizeOf node := by
  have hpos := Node.one_lt_sizeOf node
  simp only [resolveBundleStep]
  split
  · simp only [List.nil.sizeOf_spec]
    omega
  · split
    · simp only [List.nil.sizeOf_spec]
      omega
    · next w hw =>
      have hmem : w ∈ node.children := pickWinner_mem hw
      have h1 : sizeOf w < sizeOf node.children := List.sizeOf_lt_of_mem hmem
      have h2 := Node.sizeOf_children_lt w
      have h3 := Node.sizeOf_children_lt node
      split
      · simp only [List.nil.sizeOf_spec]
        omega
      · show sizeOf w.children < sizeOf node
        omega

/-- The document-tree effect of `SelectMimeType.run` (sphinx_.py lines
628-669) on a list of sibling nodes: `findall` visits nodes in document
order, so each mime-bundle node is processed before any bundle nested in
its replacement content, and the bundles nested inside losing or empty
mime containers are discarded with their (detached) parents.  Rendering
that effect recursively: a mime-bundle child is replaced by its
`resolveBundleStep` replacement, itself resolved; any other node keeps its
attributes and classes and has its children resolved. -/
def resolveList (bname : String) (pri : List String) : List Node → List Node
  | [] => []
  | Node.mk a cl cs :: rest =>
    (if Node.nbElement (Node.mk a cl cs) == "mime_bundle" then
      resolveList bname pri
        (resolveBundleStep bname pri (Node.mk a cl cs)).replacement
     else
      [Node.mk a cl (resolveList bname pri cs)])
    ++ resolveList bname pri rest
termination_by l => sizeOf l
decreasing_by
  all_goals simp only [List.cons.sizeOf_spec, Node.mk.sizeOf_spec]
  · have := resolveBundleStep_sizeOf_lt bname pri (Node.mk a cl cs)
    simp only [Node.mk.sizeOf_spec] at this
    omega
  · omega
  · omega

/-- Holds (`true`) when no node in the list (recursively) is a mime-bundle node:
the condition scanned for by `SelectMimeType.run`'s `findall`. -/
def noBundles : List Node → Bool
  | [] => true
  | Node.mk a cl cs :: rest =>
    !(Node.nbElement (Node.mk a cl cs) == "mime_bundle")
      && noBundles cs && noBundles rest
termination_by l => sizeOf l
decreasing_by
  all_goals simp only [List.cons.sizeOf_spec, Node.mk.sizeOf_spec]
  · omega
  · omega

/-- The slice of `NbParserConfig` (myst_nb.core.config) that
`sphinx_.py` reads: the cell-metadata namespace key
(`cell_render_key`, e.g. `"render"`) and `self.nb_config[key]` field
access, total because the config dataclass always carries its fields. -/
structure NbParserConfig where
  cell_render_key : String
  values : String → PyValue

/-- Reads `cell_metadata[cell_metadata_key][key]` as probed by
`get_cell_render_config`: present exactly when the namespace mapping is an
entry of `cell_metadata` and carries `key`. -/
def nsLookup (cell_metadata : List (String × PyValue)) (nsKey key : String) :
    Option PyValue :=
  match lookup cell_metadata nsKey with
  | some (PyValue.dict ns) => lookup ns key
  | _ => none

/-- Models `SphinxNbRenderer.get_cell_render_config` (sphinx_.py lines 387-413):
if the cell metadata namespace holds `key`, return it verbatim; otherwise
raise `KeyError(key)` when `has_nb_key` is false, else return the
notebook-level configuration value under `nb_key` (defaulting to `key`).
A `KeyError` is modelled as `Except.error` carrying the key. -/
def get_cell_render_config (cfg : NbParserConfig)
    (cell_metadata : List (String × PyValue)) (key : String)
    (nb_key : Option String) (has_nb_key : Bool) : Except String PyValue :=
  match nsLookup cell_metadata cfg.cell_render_key key with
  | Option.none =>
    if !has_nb_key then Except.error key
    else Except.ok (cfg.values (nb_key.getD key))
  | some v => Except.ok v

/-- Python truthiness of a metadata/configuration value, as used by the
`or` / `if ... and ...` checks in `render_nb_cell_code`. -/
def truthy : PyValue → Bool
  | PyValue.none => false
  | PyValue.bool b => b
  | PyValue.int z => !(z == 0)
  | PyValue.str s => !s.isEmpty
  | PyValue.list xs => !xs.isEmpty
  | PyValue.dict es => !es.isEmpty

/-- Calls `get_cell_render_config` with notebook fallback enabled, which never raises;
this extracts its value (`PyValue.none` is dead code for `has_nb_key =
true`). -/
def cellConfigValue (cfg : NbParserConfig)
    (cell_metadata : List (String × PyValue)) (key : String) : PyValue :=
  match get_cell_render_config cfg cell_metadata key Option.none true with
  | Except.ok v => v
  | Except.error _ => PyValue.none

/-- Reads `token.meta["metadata"].get("tags", [])`: the cell's tag list.  Tags are
strings; a non-string member could never equal the tag names tested for, so
it is dropped. -/
def tagsOf (cell_metadata : List (String × PyValue)) : List String :=
  match lookup cell_metadata "tags" with
  | some (PyValue.list xs) =>
    xs.filterMap (fun v => match v with
      | PyValue.str s => some s
      | _ => Option.none)
  | _ => []

/-- The `remove_input` flag of `render_nb_cell_code` (sphinx_.py lines
463-467): the resolved `remove_code_source` value OR the presence of tag
`remove_input` or `remove-input`. -/
def removeInputFlag (cfg : NbParserConfig)
    (cell_metadata : List (String × PyValue)) : Bool :=
  truthy (cellConfigValue cfg cell_metadata "remove_code_source")
    || (tagsOf cell_metadata).contains "remove_input"
    || (tagsOf cell_metadata).contains "remove-input"

/-- The `remove_output` flag of `render_nb_cell_code` (sphinx_.py lines
468-472): the resolved `remove_code_outputs` value OR the presence of tag
`remove_output` or `remove-output`. -/
def removeOutputFlag (cfg : NbParserConfig)
    (cell_metadata : List (String × PyValue)) : Bool :=
  truthy (cellConfigValue cfg cell_metadata "remove_code_outputs")
    || (tagsOf cell_metadata).contains "remove_output"
    || (tagsOf cell_metadata).contains "remove-output"

/-- Models `SphinxNbRenderer.render_nb_cell_code` (sphinx_.py lines 457-512),
returning the nodes appended to the current node.  The rendering of the
source code block and of the outputs (delegated to
`render_nb_cell_code_source` / `render_nb_cell_code_outputs`) is abstracted
as the node lists `sourceNodes` / `outputNodes`; `has_outputs` is
`notebook["cells"][cell_index].get("outputs", [])` being non-empty. -/
def render_nb_cell_code (cfg : NbParserConfig) (cell_index : Nat)
    (cell_metadata : List (String × PyValue)) (execution_count : Option Int)
    (sourceNodes outputNodes : List Node) (has_outputs : Bool) : List Node :=
  let tags := tagsOf cell_metadata
  let remove_input := removeInputFlag cfg cell_metadata
  let remove_output := removeOutputFlag cfg cell_metadata
  if remove_input && remove_output then []
  else
    let classes := "cell" :: tags.map (fun tag => "tag_" ++ tag.replace " " "_")
    let inputPart : List Node :=
      if !remove_input then
        [Node.mk [("nb_element", PyValue.str "cell_code_source")]
          ["cell_input"] sourceNodes]
      else []
    let outputPart : List Node :=
      if !remove_output && has_outputs then
        [Node.mk [("nb_element", PyValue.str "cell_code_output")]
          ["cell_output"] outputNodes]
      else []
    [Node.mk
      [("nb_element", PyValue.str "cell_code"),
       ("cell_index", PyValue.int cell_index),
       ("exec_count",
         match execution_count with
         | some z => PyValue.int z
         | _ => PyValue.none),
       ("cell_metadata", PyValue.dict cell_metadata)]
      classes (inputPart ++ outputPart)]

/-- The argument record handed to the plugin's `render_mime_type`
(`MimeData` from myst_nb.core.render). -/
structure MimeData where
  mime_type : String
  content : String
  cell_metadata : List (String × PyValue)
  output_metadata : List (String × PyValue)
  cell_index : Nat
  output_index : Nat
  line : Nat

/-- The `for mime_type, data in output["data"].items()` loop of the
display-data branch of `render_nb_cell_code_outputs` (sphinx_.py lines
591-607): one mime-container node per pair, in insertion order, filled with
the plugin's `render_mime_type` nodes, and appended to the bundle only when
it received at least one child. -/
def buildBundleChildren (render : MimeData → List Node)
    (cell_metadata output_metadata : List (String × PyValue))
    (cell_index output_index line : Nat) :
    List (String × String) → List Node
  | [] => []
  | (mime_type, data) :: rest =>
    let mime_container :=
      Node.mk [("mime_type", PyValue.str mime_type)] []
        (render ⟨mime_type, data, cell_metadata, output_metadata,
                 cell_index, output_index, line⟩)
    (if mime_container.children.isEmpty then [] else [mime_container])
      ++ buildBundleChildren render cell_metadata output_metadata cell_index
          output_index line rest

/-- The display-data / execute-result branch of
`SphinxNbRenderer.render_nb_cell_code_outputs` (sphinx_.py lines 561-610),
returning the nodes appended to the current node: one mime-bundle container
holding the surviving mime containers, itself appended only when it has at
least one child.  The optional figure context wrapper (an external
collaborator) is elided: it does not alter which bundle/container nodes are
created or dropped. -/
def render_output_display_data (render : MimeData → List Node)
    (cell_metadata output_metadata : List (String × PyValue))
    (cell_index output_index line : Nat)
    (data : List (String × String)) : List Node :=
  let mime_bundle :=
    Node.mk [("nb_element", PyValue.str "mime_bundle")] []
      (buildBundleChildren render cell_metadata output_metadata cell_index
        output_index line data)
  if mime_bundle.children.isEmpty then [] else [mime_bundle]

/-- The reserved notebook-metadata keys (`special_keys` in
`render_nb_metadata`, sphinx_.py line 419). -/
def special_keys : List String := ["kernelspec", "language_info", "source_map"]

/-- What `SphinxNbRenderer.render_nb_metadata` produces: the entries written
to the side store `env.metadata[env.docname]` and the mapping handed to
`render_front_matter`. -/
structure NbMetadataResult where
  env_metadata : List (String × PyValue)
  top_matter : List (String × PyValue)

/-- Models `SphinxNbRenderer.render_nb_metadata` (sphinx_.py lines 415-438): first
copy each reserved key present in the incoming metadata into
`env.metadata[env.docname]`, then let the plugin's `render_nb_metadata`
transform the metadata, and finally forward the transformed metadata minus
the reserved keys to the front-matter renderer. -/
def render_nb_metadata
    (plugin : List (String × PyValue) → List (String × PyValue))
    (meta : List (String × PyValue)) : NbMetadataResult :=
  let env_entries :=
    special_keys.filterMap (fun key => (lookup meta key).map (fun v => (key, v)))
  let metadata := plugin meta
  let top_matter :=
    metadata.filter (fun kv => !(special_keys.contains kv.1))
  ⟨env_entries, top_matter⟩

/-- Modelled from the spec: the behaviour claim C9 describes, in which the
notebook metadata "first" passes through the Render-Element Plugin and the
reserved keys are "then" extracted from the transformed metadata into the
side store.  Compared against `render_nb_metadata` (the code), which
extracts the reserved keys from the incoming metadata before the plugin
runs. -/
def render_nb_metadata_spec
    (plugin : List (String × PyValue) → List (String × PyValue))
    (meta : List (String × PyValue)) : NbMetadataResult :=
  let metadata := plugin meta
  let env_entries :=
    special_keys.filterMap
      (fun key => (lookup metadata key).map (fun v => (key, v)))
  let top_matter :=
    metadata.filter (fun kv => !(special_keys.contains kv.1))
  ⟨env_entries, top_matter⟩

/-- A log record emitted through the document logger. -/
structure LogMessage where
  level : String
  subtype : String
  message : String

/-- The notebook-metadata configuration-override step of `Parser.parse`
(sphinx_.py lines 277-291): if the configured metadata key holds a mapping
in the notebook metadata, drop its `output_folder` entry and try
`nb_config.copy(**overrides)`; on failure keep the original configuration
and log one warning of subtype `config`; on success adopt the new
configuration and log a debug message.  `NbParserConfig.copy` lives outside
sphinx_.py and is abstracted as the fallible parameter `copy`. -/
def parse_update_config
    (copy : NbParserConfig → List (String × PyValue) →
      Except String NbParserConfig)
    (nb_config : NbParserConfig) (metadata_key : String)
    (notebook_metadata : List (String × PyValue)) :
    NbParserConfig × List LogMessage :=
  match lookup notebook_metadata metadata_key with
  | some (PyValue.dict m) =>
    let overrides := m.filter (fun kv => !(kv.1 == "output_folder"))
    match copy nb_config overrides with
    | Except.ok newConfig =>
      (newConfig,
       [⟨"debug", "config", "Updated configuration with notebook metadata"⟩])
    | Except.error exc =>
      (nb_config,
       [⟨"warning", "config",
         "Failed to update configuration with notebook metadata: " ++ exc⟩])
  | _ => (nb_config, [])

/-- The myst-nb slice of the sphinx build environment
(`SphinxEnvType` / `NbMetadataCollector` state): the per-document metadata
mapping (`None` = no entry for that docname) and the build-wide "new
execution data" flag. -/
structure NbEnv where
  nb_metadata : String → Option (List (String × PyValue))
  nb_new_exec_data : Bool

attribute [ext] NbEnv

/-- Models `NbMetadataCollector.merge_other` (sphinx_.py lines 761-774): for each
docname in `docnames` replace this store's entry wholesale by
`other_metadata[docname]` — a `defaultdict(dict)` access, so a docname the
other store has no entry for reads as a fresh empty mapping — and set the
"new execution data" flag when the other store's flag is set. -/
def merge_other (env : NbEnv) (docnames : List String) (other : NbEnv) :
    NbEnv :=
  { nb_metadata := fun docname =>
      if docnames.contains docname then
        some ((other.nb_metadata docname).getD [])
      else env.nb_metadata docname,
    nb_new_exec_data :=
      if other.nb_new_exec_data then true else env.nb_new_exec_data }

/-- C5: for every cell metadata mapping, key, optional notebook-level key
and fallback flag, `get_cell_render_config` returns
`cell_metadata[namespace][key]` verbatim when present; otherwise it raises
`KeyError` when notebook fallback is disabled, and otherwise returns the
global configuration value under the notebook-level key (defaulting to
`key`).  The lookup is a pure function of its inputs, so it mutates neither
the cell metadata nor the configuration. -/
theorem get_cell_render_config_spec (cfg : NbParserConfig)
    (cell_metadata : List (String × PyValue)) (key : String)
    (nb_key : Option String) (has_nb_key : Bool) :
    (∀ v, nsLookup cell_metadata cfg.cell_render_key key = some v →
      get_cell_render_config cfg cell_metadata key nb_key has_nb_key
        = Except.ok v) ∧
    (nsLookup cell_metadata cfg.cell_render_key key = Option.none →
      has_nb_key = false →
      get_cell_render_config cfg cell_metadata key nb_key has_nb_key
        = Except.error key) ∧
    (nsLookup cell_metadata cfg.cell_render_key key = Option.none →
      has_nb_key = true →
      get_cell_render_config cfg cell_metadata key nb_key has_nb_key
        = Except.ok (cfg.values (nb_key.getD key))) := by
  refine ⟨?_, ?_, ?_⟩
  · intro v hv
    simp [get_cell_render_config, hv]
  · intro hnone hflag
    simp [get_cell_render_config, hnone, hflag]
  · intro hnone hflag
    simp [get_cell_render_config, hnone, hflag]

/-- Witness for C5: the three branches at concrete inputs — a cell-level
override returned verbatim, a `KeyError` with fallback disabled, and the
notebook-level value with fallback enabled. -/
theorem get_cell_render_config_spec_witness :
    get_cell_render_config ⟨"render", fun _ => PyValue.bool false⟩
        [("render", PyValue.dict [("figure", PyValue.str "options")])]
        "figure" Option.none true = Except.ok (PyValue.str "options") ∧
    get_cell_render_config ⟨"render", fun _ => PyValue.bool false⟩
        [("render", PyValue.dict [])] "figure" Option.none false
      = Except.error "figure" ∧
    get_cell_render_config ⟨"render", fun _ => PyValue.bool false⟩
        [] "remove_code_source" (some "remove_code_source") true
      = Except.ok (PyValue.bool false) :=
  ⟨(get_cell_render_config_spec ⟨"render", fun _ => PyValue.bool false⟩
      [("render", PyValue.dict [("figure", PyValue.str "options")])]
      "figure" Option.none true).1 (PyValue.str "options") rfl,
   (get_cell_render_config_spec ⟨"render", fun _ => PyValue.bool false⟩
      [("render", PyValue.dict [])] "figure" Option.none false).2.1 rfl rfl,
   (get_cell_render_config_spec ⟨"render", fun _ => PyValue.bool false⟩
      [] "remove_code_source" (some "remove_code_source") true).2.2 rfl rfl⟩

/-- C4: the remove-input flag is the OR of the resolved
`remove_code_source` configuration value with the presence of tag
`remove_input` or `remove-input`; the remove-output flag is the OR of the
resolved `remove_code_outputs` value with tag `remove_output` or
`remove-output`; and when both flags hold the cell renders to zero nodes. -/
theorem render_nb_cell_code_remove_flags (cfg : NbParserConfig)
    (cell_index : Nat) (cell_metadata : List (String × PyValue))
    (execution_count : Option Int) (sourceNodes outputNodes : List Node)
    (has_outputs : Bool) :
    (removeInputFlag cfg cell_metadata = true ↔
      (truthy (cellConfigValue cfg cell_metadata "remove_code_source") = true
        ∨ "remove_input" ∈ tagsOf cell_metadata
        ∨ "remove-input" ∈ tagsOf cell_metadata)) ∧
    (removeOutputFlag cfg cell_metadata = true ↔
      (truthy (cellConfigValue cfg cell_metadata "remove_code_outputs") = true
        ∨ "remove_output" ∈ tagsOf cell_metadata
        ∨ "remove-output" ∈ tagsOf cell_metadata)) ∧
    (removeInputFlag cfg cell_metadata = true →
      removeOutputFlag cfg cell_metadata = true →
      render_nb_cell_code cfg cell_index cell_metadata execution_count
        sourceNodes outputNodes has_outputs = []) := by
  refine ⟨?_, ?_, ?_⟩
  · simp [removeInputFlag, List.elem_iff, Bool.or_eq_true, or_assoc]
  · simp [removeOutputFlag, List.elem_iff, Bool.or_eq_true, or_assoc]
  · intro h1 h2
    simp [render_nb_cell_code, h1, h2]

/-- Witness for C4: a configuration resolving both remove flags true
renders a code cell (with source, outputs present) to zero nodes. -/
theorem render_nb_cell_code_remove_flags_witness :
    render_nb_cell_code ⟨"render", fun _ => PyValue.bool true⟩ 0
      [("tags", PyValue.list [PyValue.str "remove-input"])] (some 1)
      [Node.mk [] [] []] [Node.mk [] [] []] true = [] :=
  (render_nb_cell_code_remove_flags ⟨"render", fun _ => PyValue.bool true⟩ 0
    [("tags", PyValue.list [PyValue.str "remove-input"])] (some 1)
    [Node.mk [] [] []] [Node.mk [] [] []] true).2.2 rfl rfl

/-- C8: when applying notebook-level metadata overrides fails, the failure
is caught locally, exactly one warning of subtype `config` is logged, and
the original configuration is returned unchanged (no partial application);
`parse_update_config` is total, so parsing continues. -/
theorem parse_update_config_failure
    (copy : NbParserConfig → List (String × PyValue) →
      Except String NbParserConfig)
    (nb_config : NbParserConfig) (metadata_key : String)
    (notebook_metadata m : List (String × PyValue)) (exc : String)
    (hm : lookup notebook_metadata metadata_key = some (PyValue.dict m))
    (hfail : copy nb_config (m.filter (fun kv => !(kv.1 == "output_folder")))
      = Except.error exc) :
    parse_update_config copy nb_config metadata_key notebook_metadata
      = (nb_config,
         [⟨"warning", "config",
           "Failed to update configuration with notebook metadata: " ++ exc⟩])
    := by
  simp [parse_update_config, hm, hfail]

/-- Witness for C8: an override mapping whose application fails leaves the
configuration untouched and logs one `config`-subtype warning. -/
theorem parse_update_config_failure_witness :
    parse_update_config (fun _ _ => Except.error "bad value")
      ⟨"render", fun _ => PyValue.none⟩ "mystnb"
      [("mystnb", PyValue.dict [("execution_timeout", PyValue.str "x")])]
      = (⟨"render", fun _ => PyValue.none⟩,
         [⟨"warning", "config",
           "Failed to update configuration with notebook metadata: bad value"⟩])
    :=
  parse_update_config_failure (fun _ _ => Except.error "bad value")
    ⟨"render", fun _ => PyValue.none⟩ "mystnb"
    [("mystnb", PyValue.dict [("execution_timeout", PyValue.str "x")])]
    [("execution_timeout", PyValue.str "x")] "bad value" rfl rfl

/-- C10: merging with a target docname for which the other store has no
entry replaces the target's entry by a fresh empty mapping (the
`defaultdict(dict)` read), discarding whatever the target held before. -/
theorem merge_other_missing_entry (env other : NbEnv)
    (docnames : List String) (d : String)
    (hd : docnames.contains d = true)
    (hnone : other.nb_metadata d = Option.none) :
    (merge_other env docnames other).nb_metadata d = some [] := by
  have hd' : d ∈ docnames := List.elem_iff.mp hd
  simp [merge_other, hd', hnone]

/-- Witness for C10: a target entry holding data is replaced by `some []`
when the other store lacks the docname. -/
theorem merge_other_missing_entry_witness :
    (merge_other
      ⟨fun _ => some [("glue", PyValue.list [PyValue.str "k"])], false⟩
      ["doc1"] ⟨fun _ => Option.none, false⟩).nb_metadata "doc1" = some [] :=
  merge_other_missing_entry
    ⟨fun _ => some [("glue", PyValue.list [PyValue.str "k"])], false⟩
    ⟨fun _ => Option.none, false⟩ ["doc1"] "doc1" rfl rfl

/-- C6: `merge_other` fully replaces the target store's entry for each
docname in the target set with the other store's entry (other wins, never a
field-by-field merge), leaves entries outside the set untouched, ORs the
"new execution data" flags, and merges for disjoint docname sets commute. -/
theorem merge_other_spec (env o1 o2 : NbEnv) (ds1 ds2 : List String)
    (hdisj : ∀ d, ds1.contains d = true → ds2.contains d = false) :
    (∀ d, ds1.contains d = true →
      (merge_other env ds1 o1).nb_metadata d
        = some ((o1.nb_metadata d).getD [])) ∧
    (∀ d, ds1.contains d = false →
      (merge_other env ds1 o1).nb_metadata d = env.nb_metadata d) ∧
    ((merge_other env ds1 o1).nb_new_exec_data = true ↔
      (env.nb_new_exec_data = true ∨ o1.nb_new_exec_data = true)) ∧
    merge_other (merge_other env ds1 o1) ds2 o2
      = merge_other (merge_other env ds2 o2) ds1 o1 := by
  refine ⟨?_, ?_, ?_, ?_⟩
  · intro d hd
    have hd' : d ∈ ds1 := List.elem_iff.mp hd
    simp [merge_other, hd']
  · intro d hd
    have hd' : d ∉ ds1 := by
      intro hmem
      have hcd : ds1.contains d = true := List.elem_iff.mpr hmem
      rw [hcd] at hd
      simp at hd
    simp [merge_other, hd']
  · simp only [merge_other]
    cases henv : env.nb_new_exec_data <;> cases ho : o1.nb_new_exec_data <;>
      simp
  · apply NbEnv.ext
    · funext d
      by_cases h1 : d ∈ ds1
      · have h2 : d ∉ ds2 := by
          intro hmem
          have hfalse := hdisj d (List.elem_iff.mpr h1)
          have hcd : ds2.contains d = true := List.elem_iff.mpr hmem
          rw [hcd] at hfalse
          simp at hfalse
        simp [merge_other, h1, h2]
      · by_cases h2 : d ∈ ds2 <;> simp [merge_other, h1, h2]
    · simp only [merge_other]
      cases o1.nb_new_exec_data <;> cases o2.nb_new_exec_data <;> simp

/-- Witness for C6: two single-document merges over disjoint docname sets
applied in either order, replacement and flag behaviour at concrete
stores. -/
theorem merge_other_spec_witness :
    (merge_other ⟨fun _ => Option.none, false⟩ ["a"]
        ⟨fun _ => some [("exec_data", PyValue.str "r")], true⟩).nb_metadata "a"
      = some [("exec_data", PyValue.str "r")] ∧
    ((merge_other ⟨fun _ => Option.none, false⟩ ["a"]
        ⟨fun _ => some [("exec_data", PyValue.str "r")], true⟩).nb_new_exec_data
        = true ↔ (False ∨ True)) ∧
    merge_other
        (merge_other ⟨fun _ => Option.none, false⟩ ["a"]
          ⟨fun _ => some [("exec_data", PyValue.str "r")], true⟩) ["b"]
        ⟨fun _ => Option.none, false⟩
      = merge_other
          (merge_other ⟨fun _ => Option.none, false⟩ ["b"]
            ⟨fun _ => Option.none, false⟩) ["a"]
          ⟨fun _ => some [("exec_data", PyValue.str "r")], true⟩ := by
  have hdisj : ∀ d, (["a"] : List String).contains d = true →
      (["b"] : List String).contains d = false := by
    intro d hd
    have hmem : d ∈ ["a"] := List.elem_iff.mp hd
    simp at hmem
    subst hmem
    rfl
  have h := merge_other_spec ⟨fun _ => Option.none, false⟩
    ⟨fun _ => some [("exec_data", PyValue.str "r")], true⟩
    ⟨fun _ => Option.none, false⟩ ["a"] ["b"] hdisj
  refine ⟨h.1 "a" rfl, ?_, h.2.2.2⟩
  rw [h.2.2.1]
  simp

/-- C9 counterexample: the claim's ordering — plugin transform first, then
extraction of the reserved keys — disagrees with the code, which copies the
reserved keys out of the incoming metadata *before* the plugin runs.  With a
plugin that rewrites `kernelspec`, the code stores the original value while
the claimed behaviour stores the transformed one. -/
theorem render_nb_metadata_order_counterexample :
    render_nb_metadata
        (fun _ => [("kernelspec", PyValue.str "transformed")])
        [("kernelspec", PyValue.str "original")]
      ≠ render_nb_metadata_spec
          (fun _ => [("kernelspec", PyValue.str "transformed")])
          [("kernelspec", PyValue.str "original")] := by
  intro h
  have h2 := congrArg NbMetadataResult.env_metadata h
  simp [render_nb_metadata, render_nb_metadata_spec, special_keys,
    lookup] at h2

/-- C9 amended: rendering notebook metadata extracts the reserved keys
`kernelspec`, `language_info` and `source_map` from the *incoming* notebook
metadata into the side document-metadata store, then lets the Render-Element
Plugin transform/filter the metadata, and forwards exactly the non-reserved
keys of the transformed metadata to the generic front-matter step. -/
theorem render_nb_metadata_amended
    (plugin : List (String × PyValue) → List (String × PyValue))
    (meta : List (String × PyValue)) :
    ((render_nb_metadata plugin meta).top_matter
      = (plugin meta).filter (fun kv => !(special_keys.contains kv.1))) ∧
    (∀ key, special_keys.contains key = true →
      lookup (render_nb_metadata plugin meta).env_metadata key
        = lookup meta key) ∧
    (∀ kv, kv ∈ (render_nb_metadata plugin meta).env_metadata →
      kv.1 ∈ special_keys) := by
  refine ⟨rfl, ?_, ?_⟩
  · intro key hk
    have hk' : key ∈ special_keys := List.elem_iff.mp hk
    simp only [special_keys, List.mem_cons, List.not_mem_nil, or_false]
      at hk'
    show lookup (special_keys.filterMap
        (fun k => (lookup meta k).map (fun v => (k, v)))) key = lookup meta key
    simp only [special_keys, List.filterMap_cons, List.filterMap_nil]
    rcases h1 : lookup meta "kernelspec" with _ | v1 <;>
      rcases h2 : lookup meta "language_info" with _ | v2 <;>
        rcases h3 : lookup meta "source_map" with _ | v3 <;>
          rcases hk' with rfl | rfl | rfl <;>
            simp only [lookup] at h1 h2 h3 <;>
              simp [lookup, h1, h2, h3]
  · intro kv hkv
    simp only [render_nb_metadata, List.mem_filterMap, Option.map_eq_some']
      at hkv
    rcases hkv with ⟨key, hkey, v, _, rfl⟩
    exact hkey

/-- Witness for C9's amended statement: with a plugin that injects a title
and rewrites `kernelspec`, the store keeps the original `kernelspec` and the
front matter gets exactly the non-reserved keys of the transformed
metadata. -/
theorem render_nb_metadata_amended_witness :
    lookup (render_nb_metadata
        (fun m => ("title", PyValue.str "T") :: m)
        [("kernelspec", PyValue.str "py"),
         ("authors", PyValue.str "A")]).env_metadata "kernelspec"
      = some (PyValue.str "py") ∧
    (render_nb_metadata (fun m => ("title", PyValue.str "T") :: m)
        [("kernelspec", PyValue.str "py"),
         ("authors", PyValue.str "A")]).top_matter
      = [("title", PyValue.str "T"), ("authors", PyValue.str "A")] := by
  have h := render_nb_metadata_amended
    (fun m => ("title", PyValue.str "T") :: m)
    [("kernelspec", PyValue.str "py"), ("authors", PyValue.str "A")]
  exact ⟨(h.2.1 "kernelspec" rfl).trans rfl, h.1.trans rfl⟩

/-- The bundle-children loop equals a map (one container per data pair, in
insertion order, tagged with its mime type and filled with the plugin's
nodes) filtered to the containers with at least one rendered child. -/
theorem buildBundleChildren_eq (render : MimeData → List Node)
    (cell_metadata output_metadata : List (String × PyValue))
    (cell_index output_index line : Nat) (data : List (String × String)) :
    buildBundleChildren render cell_metadata output_metadata cell_index
        output_index line data
      = (data.map (fun p =>
          Node.mk [("mime_type", PyValue.str p.1)] []
            (render ⟨p.1, p.2, cell_metadata, output_metadata, cell_index,
              output_index, line⟩))).filter
          (fun c => !c.children.isEmpty) := by
  induction data with
  | nil => rfl
  | cons p rest ih =>
    cases p with
    | mk mime_type d =>
      simp only [buildBundleChildren, List.map_cons, List.filter_cons, ih,
        Node.children]
      by_cases h : (render ⟨mime_type, d, cell_metadata, output_metadata,
          cell_index, output_index, line⟩).isEmpty <;>
        simp [h]

/-- The filtered container list is empty exactly when every pair's rendered
nodes are empty. -/
theorem buildBundleChildren_isEmpty (render : MimeData → List Node)
    (cell_metadata output_metadata : List (String × PyValue))
    (cell_index output_index line : Nat) (data : List (String × String)) :
    (buildBundleChildren render cell_metadata output_metadata cell_index
        output_index line data).isEmpty
      = data.all (fun p =>
          (render ⟨p.1, p.2, cell_metadata, output_metadata, cell_index,
            output_index, line⟩).isEmpty) := by
  induction data with
  | nil => rfl
  | cons p rest ih =>
    cases p with
    | mk mime_type d =>
      simp only [buildBundleChildren, List.all_cons, Node.children]
      by_cases h : (render ⟨mime_type, d, cell_metadata, output_metadata,
          cell_index, output_index, line⟩).isEmpty <;>
        simp [h, ih]

/-- C1: rendering a display-data/execute-result output creates exactly one
mime-bundle container; for each `(mime_type, payload)` pair of the output's
data, in insertion order, one mime-container tagged with that mime type and
filled with the plugin's `render_mime_type` nodes; a mime-container with no
rendered children is not appended to the bundle, and a bundle with zero
mime-containers contributes no node to the tree at all. -/
theorem render_output_display_data_spec (render : MimeData → List Node)
    (cell_metadata output_metadata : List (String × PyValue))
    (cell_index output_index line : Nat) (data : List (String × String)) :
    render_output_display_data render cell_metadata output_metadata
        cell_index output_index line data
      = (if data.all (fun p =>
            (render ⟨p.1, p.2, cell_metadata, output_metadata, cell_index,
              output_index, line⟩).isEmpty) then []
         else
           [Node.mk [("nb_element", PyValue.str "mime_bundle")] []
             ((data.map (fun p =>
                 Node.mk [("mime_type", PyValue.str p.1)] []
                   (render ⟨p.1, p.2, cell_metadata, output_metadata,
                     cell_index, output_index, line⟩))).filter
               (fun c => !c.children.isEmpty))]) := by
  simp only [render_output_display_data, Node.children_mk]
  simp only [buildBundleChildren_isEmpty]
  rw [buildBundleChildren_eq]

/-- Mapping preserves emptiness (the `mime_types` list is empty exactly when
the bundle has no children). -/
theorem map_isEmpty {α β : Type} (f : α → β) (l : List α) :
    (l.map f).isEmpty = l.isEmpty := by
  cases l <;> simp

/-- If no child carries mime type `p`, then `p` is absent from the
`mime_types` list. -/
theorem contains_mimeType_false {cs : List Node} {p : String}
    (h : cs.find? (fun c => Node.mimeType c == p) = Option.none) :
    (cs.map Node.mimeType).contains p = false := by
  rw [List.find?_eq_none] at h
  by_contra hc
  rw [Bool.not_eq_false] at hc
  have hp : p ∈ cs.map Node.mimeType := List.elem_iff.mp hc
  rcases List.mem_map.mp hp with ⟨c, hcmem, hcp⟩
  exact h c hcmem (by simp [hcp])

/-- If some child carries mime type `p`, then `p` occurs in the
`mime_types` list. -/
theorem contains_mimeType_true {cs : List Node} {p : String} {c : Node}
    (h : cs.find? (fun c => Node.mimeType c == p) = some c) :
    (cs.map Node.mimeType).contains p = true := by
  have hc : c ∈ cs := List.mem_of_find?_eq_some h
  have hp := List.find?_some h
  have hcp : Node.mimeType c = p := by simpa using hp
  exact List.elem_iff.mpr (List.mem_map.mpr ⟨c, hc, hcp⟩)

/-- There is no winner among zero children. -/
theorem pickWinner_nil (pri : List String) :
    pickWinner pri [] = Option.none := by
  induction pri with
  | nil => rfl
  | cons p ps ih =>
    rw [pickWinner]
    simpa using ih

/-- Lemma: `pickWinner` selects the first child whose mime type equals the first
(lowest-index) priority entry occurring among the present mime types. -/
theorem pickWinner_eq_find (pri : List String) (cs : List Node) :
    pickWinner pri cs
      = (pri.find? (fun p => (cs.map Node.mimeType).contains p)).bind
          (fun p => cs.find? (fun c => Node.mimeType c == p)) := by
  induction pri with
  | nil => rfl
  | cons p ps ih =>
    rw [pickWinner]
    cases hf : cs.find? (fun c => Node.mimeType c == p) with
    | some c =>
      rw [List.find?_cons_of_pos _ (contains_mimeType_true hf)]
      simp [hf]
    | none =>
      have hcf := contains_mimeType_false hf
      rw [List.find?_cons_of_neg _ (by
        intro hcontra
        rw [hcf] at hcontra
        exact Bool.noConfusion hcontra), ih]

/-- When no priority entry occurs among the mime types, there is no
winner. -/
theorem pickWinner_none_of_no_match {pri : List String} {cs : List Node}
    (h : ∀ p ∈ pri, (cs.map Node.mimeType).contains p = false) :
    pickWinner pri cs = Option.none := by
  induction pri with
  | nil => rfl
  | cons p ps ih =>
    rw [pickWinner]
    cases hf : cs.find? (fun c => Node.mimeType c == p) with
    | some c =>
      have hcontra := contains_mimeType_true hf
      rw [h p (List.mem_cons_self p ps)] at hcontra
      exact Bool.noConfusion hcontra
    | none => exact ih (fun q hq => h q (List.mem_cons_of_mem p hq))

/-- C2: for a mime-bundle node with a winner, the resolver selects the
child whose mime type matches the first (lowest-index) priority entry that
matches any present mime type (and, among several children with that type,
the first); if that winning child has no rendered content the node is
removed with no fallback to a later priority entry, otherwise the node is
replaced by the winning mime-container's children, discarding the wrapper
and all losing candidates, with no warning. -/
theorem selectMimeType_priority_selection (bname : String)
    (pri : List String) (node w : Node)
    (hw : pickWinner pri node.children = some w) :
    (pickWinner pri node.children
      = (pri.find? (fun p =>
          (node.children.map Node.mimeType).contains p)).bind
          (fun p => node.children.find? (fun c => Node.mimeType c == p))) ∧
    resolveBundleStep bname pri node
      = (if w.children.isEmpty then ⟨[], []⟩ else ⟨w.children, []⟩) := by
  refine ⟨pickWinner_eq_find pri node.children, ?_⟩
  have hne : node.children.isEmpty = false := by
    cases hcs : node.children with
    | nil =>
      rw [hcs, pickWinner_nil] at hw
      exact Option.noConfusion hw
    | cons a l => rfl
  simp only [resolveBundleStep, map_isEmpty, hne, Bool.false_eq_true,
    if_false, hw]

/-- C3: a mime-bundle node whose children's mime types match no priority
entry is removed with exactly one warning naming the unmatched mime types
and the active builder; a mime-bundle node with zero children is removed
without a warning. -/
theorem selectMimeType_no_match (bname : String) (pri : List String)
    (node : Node)
    (hnomatch : ∀ p ∈ pri,
      (node.children.map Node.mimeType).contains p = false) :
    (node.children.isEmpty = false →
      resolveBundleStep bname pri node
        = ⟨[], [mimeWarning bname (node.children.map Node.mimeType)]⟩) ∧
    (node.children.isEmpty = true →
      resolveBundleStep bname pri node = ⟨[], []⟩) := by
  have hnone := pickWinner_none_of_no_match hnomatch
  constructor
  · intro hne
    simp only [resolveBundleStep, map_isEmpty, hne, Bool.false_eq_true,
      if_false, hnone]
  · intro he
    simp only [resolveBundleStep, map_isEmpty, he, if_true]

/-- A concrete mime-bundle: children typed `text/plain` then `text/html`,
each with rendered content. -/
def selectWitnessNode : Node :=
  Node.mk [("nb_element", PyValue.str "mime_bundle")] []
    [Node.mk [("mime_type", PyValue.str "text/plain")] [] [Node.mk [] [] []],
     Node.mk [("mime_type", PyValue.str "text/html")] []
       [Node.mk [("nb_element", PyValue.str "raw")] [] []]]

/-- Witness for C2: with priority `[application/pdf, text/html, text/plain]`
and available types `{text/plain, text/html}`, the resolver selects
`text/html` (the lowest-index matching priority entry, not the first child)
and splices exactly its children, without a warning. -/
theorem selectMimeType_priority_selection_witness :
    resolveBundleStep "html" ["application/pdf", "text/html", "text/plain"]
        selectWitnessNode
      = ⟨[Node.mk [("nb_element", PyValue.str "raw")] [] []], []⟩ :=
  (selectMimeType_priority_selection "html"
    ["application/pdf", "text/html", "text/plain"] selectWitnessNode
    (Node.mk [("mime_type", PyValue.str "text/html")] []
      [Node.mk [("nb_element", PyValue.str "raw")] [] []]) rfl).2

/-- A concrete mime-bundle whose single child's mime type matches nothing. -/
def noMatchWitnessNode : Node :=
  Node.mk [("nb_element", PyValue.str "mime_bundle")] []
    [Node.mk [("mime_type", PyValue.str "application/x-custom")] []
      [Node.mk [] [] []]]

/-- Witness for C3: available type `{application/x-custom}` against priority
list `[text/html, text/plain]` removes the node with exactly one warning
naming the type and the builder, while a zero-children bundle is removed
silently. -/
theorem selectMimeType_no_match_witness :
    (resolveBundleStep "latex" ["text/html", "text/plain"] noMatchWitnessNode
      = ⟨[], [mimeWarning "latex" ["application/x-custom"]]⟩) ∧
    (resolveBundleStep "latex" ["text/html", "text/plain"]
        (Node.mk [("nb_element", PyValue.str "mime_bundle")] [] [])
      = ⟨[], []⟩) :=
  ⟨(selectMimeType_no_match "latex" ["text/html", "text/plain"]
      noMatchWitnessNode (by decide)).1 rfl,
   (selectMimeType_no_match "latex" ["text/html", "text/plain"]
      (Node.mk [("nb_element", PyValue.str "mime_bundle")] [] [])
      (by decide)).2 rfl⟩

/-- Lemma: `nbElement` only reads the attribute list, not the children. -/
theorem Node.nbElement_mk (a : List (String × PyValue)) (cl : List String)
    (cs : List Node) :
    (Node.mk a cl cs).nbElement
      = (match lookup a "nb_element" with
         | some (PyValue.str s) => s
         | _ => "") := rfl

/-- Lemma: `noBundles` distributes over append. -/
theorem noBundles_append (l1 l2 : List Node) :
    noBundles (l1 ++ l2) = (noBundles l1 && noBundles l2) := by
  induction l1 with
  | nil => rw [List.nil_append, noBundles, Bool.true_and]
  | cons c rest ih =>
    cases c with
    | mk a cl cs =>
      rw [List.cons_append, noBundles, noBundles, ih]
      simp [Bool.and_assoc]

/-- A bundle-free forest is left unchanged by the resolver. -/
theorem resolveList_fix (bname : String) (pri : List String) :
    ∀ l : List Node, noBundles l = true → resolveList bname pri l = l := by
  intro l
  induction l using resolveList.induct bname pri with
  | case1 => intro h; rw [resolveList]
  | case2 a cl cs rest ih1 ih2 ih3 =>
    intro h
    rw [noBundles] at h
    simp only [Bool.and_eq_true, Bool.not_eq_true'] at h
    obtain ⟨⟨hnb, hcs⟩, hrest⟩ := h
    rw [resolveList, if_neg (by rw [hnb]; exact Bool.false_ne_true),
      ih2 hcs, ih3 hrest]
    rfl

/-- The resolver's output contains no mime-bundle node. -/
theorem resolveList_noBundles (bname : String) (pri : List String) :
    ∀ l : List Node, noBundles (resolveList bname pri l) = true := by
  intro l
  induction l using resolveList.induct bname pri with
  | case1 => rw [resolveList, noBundles]
  | case2 a cl cs rest ih1 ih2 ih3 =>
    rw [resolveList]
    by_cases hb : ((Node.mk a cl cs).nbElement == "mime_bundle") = true
    · rw [if_pos hb, noBundles_append, ih1, ih3]
      rfl
    · have hb' : ((Node.mk a cl cs).nbElement == "mime_bundle") = false := by
        revert hb
        cases (Node.mk a cl cs).nbElement == "mime_bundle" <;> simp
      rw [if_neg hb]
      show noBundles (Node.mk a cl (resolveList bname pri cs)
        :: resolveList bname pri rest) = true
      rw [noBundles, Node.nbElement_mk]
      rw [Node.nbElement_mk] at hb'
      rw [hb', ih2, ih3]
      rfl

/-- C7: running the mime-bundle resolver over a forest containing no
mime-bundle node leaves it unchanged; equivalently, applying the resolver
twice gives the same forest as applying it once (the first pass leaves no
mime-bundle node behind). -/
theorem selectMimeType_idempotent (bname : String) (pri : List String)
    (l l2 : List Node) (h : noBundles l = true) :
    resolveList bname pri l = l ∧
    resolveList bname pri (resolveList bname pri l2)
      = resolveList bname pri l2 :=
  ⟨resolveList_fix bname pri l h,
   resolveList_fix bname pri (resolveList bname pri l2)
     (resolveList_noBundles bname pri l2)⟩

/-- Witness for C7: a bundle-free paragraph is untouched, and re-resolving
the already-resolved tree around a concrete mime bundle changes nothing. -/
theorem selectMimeType_idempotent_witness :
    resolveList "html" ["text/html"]
        [Node.mk [("nb_element", PyValue.str "paragraph")] [] []]
      = [Node.mk [("nb_element", PyValue.str "paragraph")] [] []] ∧
    resolveList "html" ["text/html"]
        (resolveList "html" ["text/html"]
          [Node.mk [] [] [selectWitnessNode],
           Node.mk [("nb_element", PyValue.str "paragraph")] [] []])
      = resolveList "html" ["text/html"]
          [Node.mk [] [] [selectWitnessNode],
           Node.mk [("nb_element", PyValue.str "paragraph")] [] []] :=
  selectMimeType_idempotent "html" ["text/html"]
    [Node.mk [("nb_element", PyValue.str "paragraph")] [] []]
    [Node.mk [] [] [selectWitnessNode],
     Node.mk [("nb_element", PyValue.str "paragraph")] [] []]
    (by rw [noBundles, noBundles]; rfl)
